import Mathlib

/-!
# Shallow embedding of the LuminanceHDR `HdrCreationManager` core

This file embeds, in Lean 4, the parts of
`src/HdrWizard/HdrCreationManager.cpp` (and its header) that the
specification talks about: the exposure store and its loading state
machine, the EV-offset computation, the patch-based ghost detection
(`computePatches`), and the control flow and buffer dataflow of the
gradient-domain deghosting solver (`doAntiGhosting`).

Conventions:
* C++ `float` values are modelled as `ℚ` (exact arithmetic; the claims
  under study are about control flow, data provenance and order
  relations, not floating-point rounding).
* Helper routines that live in `AutoAntighosting.cpp` (not part of the
  provided sources) — `hueSquaredMean`, `findIndex`, `sdv`,
  `comparePatches` — are taken as parameters, or modelled from the
  spec where the claim needs their shape; such definitions carry a
  `Modelled from the spec:` doc comment.
* The per-pixel image routines used by `doAntiGhosting`
  (`computeLogIrradiance`, `computeGradient`, …) are represented
  symbolically: buffers carry provenance expressions (`AgExpr`), so the
  order of operations and the channel each buffer was built from are
  captured exactly as the C++ executes them.
-/

/-- One loaded exposure, as stored by `HdrCreationManager`
(`HdrCreationItem`): pixel frame geometry, exposure metadata and the
validity flag used by `loadFilesDone`. -/
structure HdrCreationItem where
  filename : String
  width : Nat
  height : Nat
  hasEV : Bool
  ev : ℚ
  avgLum : ℚ
  valid : Bool
deriving DecidableEq, Repr

instance : Inhabited HdrCreationItem :=
  ⟨{ filename := "", width := 0, height := 0, hasEV := false,
     ev := 0, avgLum := 0, valid := false }⟩

/-- The store state of `HdrCreationManager`: the committed items
`m_data`, the pending (not yet merged) batch `m_tmpdata` (recorded by
the file names scheduled in `loadFiles`), and the derived EV offset
`m_evOffset`. -/
structure StoreState where
  m_data : List HdrCreationItem
  m_tmpdata : List String
  m_evOffset : ℚ
deriving DecidableEq, Repr

/-- The freshly-constructed manager: empty store, offset `0`
(constructor, `HdrCreationManager.cpp` line 279). -/
def initState : StoreState := { m_data := [], m_tmpdata := [], m_evOffset := 0 }

/-- `availableInputFiles` (header, line 73): `m_data.size()`. -/
def availableInputFiles (st : StoreState) : Nat := st.m_data.length

/-- `checkFileName` (`HdrCreationManager.cpp` line 122): exact string
comparison between an item's file name and a candidate path. -/
def checkFileName (item : HdrCreationItem) (str : String) : Bool :=
  item.filename = str

/-- The EVs of the items that have a known EV, in store order
(the collection loop of `refreshEVOffset`, lines 213-220). -/
def knownEVs (data : List HdrCreationItem) : List ℚ :=
  (data.filter (fun it => it.hasEV)).map (fun it => it.ev)

/-- `refreshEVOffset` (lines 204-241): `0` for an empty store, `0` when
no item has a known EV, the unique EV when exactly one does, and
otherwise the element at index `(n+1)/2 - 1` of the ascending sort. -/
def refreshEVOffset (data : List HdrCreationItem) : ℚ :=
  if data.length = 0 then 0
  else
    let evs := knownEVs data
    if evs.length = 0 then 0
    else if evs.length = 1 then evs.headI
    else (evs.insertionSort (· ≤ ·)).getD ((evs.length + 1) / 2 - 1) 0

/-- The spec's description of the EV offset ("median of all known EVs
…: sort ascending, take element at index ⌈n/2⌉−1; if no item has a
known EV, offset is zero; for a single known EV, offset equals that
value"), written from the spec's words for comparison with
`refreshEVOffset`. -/
def evOffsetSpec (data : List HdrCreationItem) : ℚ :=
  let evs := knownEVs data
  if evs.length = 0 then 0
  else if evs.length = 1 then evs.headI
  else (evs.insertionSort (· ≤ ·)).getD ((⌈(evs.length : ℚ) / 2⌉).toNat - 1) 0

/-- What a decode of one path yields: geometry, EV metadata and the
validity flag (the result of the `LoadFile` functor on one pending
item). -/
structure DecodeResult where
  width : Nat
  height : Nat
  hasEV : Bool
  ev : ℚ
  avgLum : ℚ
  valid : Bool
deriving DecidableEq, Repr

/-- Populate a pending item from its decode result (`LoadFile`
applied to the item created as `HdrCreationItem(filename)`). -/
def runLoad (decode : String → DecodeResult) (f : String) : HdrCreationItem :=
  { filename := f, width := (decode f).width, height := (decode f).height,
    hasEV := (decode f).hasEV, ev := (decode f).ev,
    avgLum := (decode f).avgLum, valid := (decode f).valid }

/-- `loadFiles` (lines 127-151): for each requested file name, search
`m_data` (and only `m_data`) for an item with that exact name; if none
is found, append a pending item for it to `m_tmpdata`. -/
def loadFiles (st : StoreState) (filenames : List String) : StoreState :=
  filenames.foldl
    (fun s f =>
      if (s.m_data.find? (fun it => checkFileName it f)).isSome then s
      else { s with m_tmpdata := s.m_tmpdata ++ [f] })
    st

/-- `framesHaveSameSize` (lines 333-343): every item from the second on
is compared against the geometry of `m_data[0]`.  (The C++ reads
`m_data[0]` unconditionally; on an empty store that access is undefined
behaviour.  The claims under study only exercise nonempty stores; the
model returns `true` on the empty list.) -/
def framesHaveSameSize (data : List HdrCreationItem) : Bool :=
  match data with
  | [] => true
  | x :: xs => xs.all (fun it => it.width = x.width && it.height = x.height)

/-- The signal emitted at the end of `loadFilesDone`. -/
inductive LoadOutcome where
  /-- `errorWhileLoading` for a cancelled/throwing batch (line 158). -/
  | errorLoading : LoadOutcome
  /-- `errorWhileLoading` for the size mismatch (line 196). -/
  | sizeMismatch : LoadOutcome
  /-- `finishedLoadingFiles` (line 200). -/
  | finishedLoadingFiles : LoadOutcome
deriving DecidableEq, Repr

/-- `loadFilesDone` (lines 153-202).  If the future watcher was
cancelled (a `LoadFile` threw), the pending batch is cleared and an
error is emitted, leaving `m_data` untouched.  Otherwise every pending
item is loaded, the valid ones are appended to `m_data`, the batch is
cleared, the EV offset is recomputed, and the geometry check either
clears the whole store (emitting the size error) or emits completion.
(The optional response-curve load of lines 164-179 touches no store
state and is not modelled.) -/
def loadFilesDone (decode : String → DecodeResult) (canceled : Bool)
    (st : StoreState) : StoreState × LoadOutcome :=
  if canceled then ({ st with m_tmpdata := [] }, .errorLoading)
  else
    let loaded := st.m_tmpdata.map (runLoad decode)
    let newData := st.m_data ++ loaded.filter (fun it => it.valid)
    let st1 : StoreState :=
      { m_data := newData, m_tmpdata := [], m_evOffset := refreshEVOffset newData }
    if ¬ framesHaveSameSize st1.m_data then
      ({ st1 with m_data := [] }, .sizeMismatch)
    else (st1, .finishedLoadingFiles)

section EVOffsetLemmas

/-- Ceiling of `n / 2` over `ℚ`, cast back to `ℕ`, agrees with the
integer expression `(n + 1) / 2` that the C++ uses. -/
theorem ceil_half_toNat (n : ℕ) : (⌈(n : ℚ) / 2⌉).toNat = (n + 1) / 2 := by
  rcases Nat.even_or_odd n with ⟨k, hk⟩ | ⟨k, hk⟩
  · subst hk
    have h1 : ((k + k : ℕ) : ℚ) / 2 = (k : ℚ) := by push_cast; ring
    rw [h1]
    have h2 : ⌈(k : ℚ)⌉ = (k : ℤ) := Int.ceil_natCast k
    rw [h2]
    omega
  · subst hk
    have h1 : ⌈((2 * k + 1 : ℕ) : ℚ) / 2⌉ = (k + 1 : ℤ) := by
      rw [Int.ceil_eq_iff]
      constructor
      · push_cast
        rw [lt_div_iff₀ (by norm_num : (0 : ℚ) < 2)]
        ring_nf
        norm_num
      · push_cast
        rw [div_le_iff₀ (by norm_num : (0 : ℚ) < 2)]
        ring_nf
        norm_num
    rw [h1]
    omega

end EVOffsetLemmas

/-- C2: For every store state, the EV offset computed by
`refreshEVOffset` equals the spec's median convention (`evOffsetSpec`):
sort the known EVs ascending and take index `⌈n/2⌉ − 1`; a single known
EV gives that value; no known EV gives `0`. -/
theorem refreshEVOffset_eq_spec (data : List HdrCreationItem) :
    refreshEVOffset data = evOffsetSpec data := by
  unfold refreshEVOffset evOffsetSpec
  by_cases hd : data.length = 0
  · have : data = [] := List.length_eq_zero.mp hd
    subst this
    simp [knownEVs]
  · simp only [hd, if_false]
    by_cases he : (knownEVs data).length = 0
    · simp [he]
    · by_cases h1 : (knownEVs data).length = 1
      · simp [he, h1]
      · simp only [he, h1, if_false]
        rw [ceil_half_toNat]

section LoadMachine

/-- `loadFiles` never touches the committed items: the loop only
appends to `m_tmpdata`. -/
theorem loadFiles_m_data (fns : List String) (st : StoreState) :
    (loadFiles st fns).m_data = st.m_data := by
  induction fns generalizing st with
  | nil => rfl
  | cons f fns ih =>
    have h1 : loadFiles st (f :: fns) =
        loadFiles (if (st.m_data.find? (fun it => checkFileName it f)).isSome = true then st
          else { st with m_tmpdata := st.m_tmpdata ++ [f] }) fns := rfl
    rw [h1, ih]
    by_cases h : (st.m_data.find? (fun it => checkFileName it f)).isSome = true <;>
      simp [h]

/-- The pending batch built by `loadFiles`: the requested names that do
not occur (by exact match) among the committed items, appended in
request order.  The duplicate check searches `m_data` only, so a name
occurring twice in one request is scheduled twice. -/
theorem loadFiles_m_tmpdata (fns : List String) (st : StoreState) :
    (loadFiles st fns).m_tmpdata =
      st.m_tmpdata ++ fns.filter
        (fun f => (st.m_data.find? (fun it => checkFileName it f)).isNone) := by
  induction fns generalizing st with
  | nil => simp [loadFiles]
  | cons f fns ih =>
    have h1 : loadFiles st (f :: fns) =
        loadFiles (if (st.m_data.find? (fun it => checkFileName it f)).isSome = true then st
          else { st with m_tmpdata := st.m_tmpdata ++ [f] }) fns := rfl
    rw [h1]
    cases hfind : st.m_data.find? (fun it => checkFileName it f) with
    | none =>
      simp only [Option.isSome_none, Bool.false_eq_true, if_false]
      rw [ih]
      simp [List.filter_cons, hfind]
    | some v =>
      simp only [Option.isSome_some, if_true]
      rw [ih]
      simp [List.filter_cons, hfind]

/-- `framesHaveSameSize` succeeds exactly when every pair of items
agrees on width and height. -/
theorem framesHaveSameSize_eq_true_iff (data : List HdrCreationItem) :
    framesHaveSameSize data = true ↔
      ∀ a ∈ data, ∀ b ∈ data, a.width = b.width ∧ a.height = b.height := by
  cases data with
  | nil => simp [framesHaveSameSize]
  | cons x xs =>
    simp only [framesHaveSameSize, List.all_eq_true, Bool.and_eq_true,
      decide_eq_true_eq, List.mem_cons]
    constructor
    · intro h a ha b hb
      have key : ∀ c, c = x ∨ c ∈ xs → c.width = x.width ∧ c.height = x.height := by
        rintro c (rfl | hc)
        · exact ⟨rfl, rfl⟩
        · exact h c hc
      obtain ⟨haw, hah⟩ := key a ha
      obtain ⟨hbw, hbh⟩ := key b hb
      exact ⟨haw.trans hbw.symm, hah.trans hbh.symm⟩
    · intro h c hc
      exact h c (Or.inr hc) x (Or.inl rfl)

/-- C8: When a load batch is cancelled (or a load threw, which cancels
the future), `loadFilesDone` leaves every committed item unchanged and
in place, discards the whole pending batch, and surfaces the loading
error to the caller. -/
theorem loadFilesDone_cancelled_preserves_store (decode : String → DecodeResult)
    (st : StoreState) :
    (loadFilesDone decode true st).1.m_data = st.m_data ∧
    (loadFilesDone decode true st).1.m_tmpdata = [] ∧
    (loadFilesDone decode true st).2 = LoadOutcome.errorLoading :=
  ⟨rfl, rfl, rfl⟩

/-- C4: If two items of the merged store (committed items plus the
valid decoded items of the batch) disagree in width or height, the
geometry check of `loadFilesDone` empties the store and reports the
size mismatch. -/
theorem loadFilesDone_size_mismatch_clears_store (decode : String → DecodeResult)
    (st : StoreState) (a b : HdrCreationItem)
    (ha : a ∈ st.m_data ++ (st.m_tmpdata.map (runLoad decode)).filter (fun it => it.valid))
    (hb : b ∈ st.m_data ++ (st.m_tmpdata.map (runLoad decode)).filter (fun it => it.valid))
    (hab : a.width ≠ b.width ∨ a.height ≠ b.height) :
    (loadFilesDone decode false st).1.m_data = [] ∧
    (loadFilesDone decode false st).2 = LoadOutcome.sizeMismatch := by
  have hsz : ¬ framesHaveSameSize
      (st.m_data ++ (st.m_tmpdata.map (runLoad decode)).filter (fun it => it.valid)) = true := by
    rw [framesHaveSameSize_eq_true_iff]
    intro h
    rcases hab with h' | h'
    · exact h' (h a ha b hb).1
    · exact h' (h a ha b hb).2
  simp [loadFilesDone, hsz]

/-- Decode environment for the C4 witness: path `"a"` is a valid 1×1
frame, every other path a valid 2×1 frame. -/
def decodeTwoSizes : String → DecodeResult := fun f =>
  if f = "a" then
    { width := 1, height := 1, hasEV := false, ev := 0, avgLum := 0, valid := true }
  else
    { width := 2, height := 1, hasEV := false, ev := 0, avgLum := 0, valid := true }

/-- A store with a settled-but-unmerged batch of the two differently
sized paths. -/
def stTwoSizes : StoreState := { m_data := [], m_tmpdata := ["a", "b"], m_evOffset := 0 }

/-- Witness for C4 at a concrete input: the merged batch `["a", "b"]`
under `decodeTwoSizes` has a width mismatch, and the settled store is
empty with the size error reported. -/
theorem loadFilesDone_size_mismatch_witness :
    ((runLoad decodeTwoSizes "a").width ≠ (runLoad decodeTwoSizes "b").width ∨
      (runLoad decodeTwoSizes "a").height ≠ (runLoad decodeTwoSizes "b").height) ∧
    ((loadFilesDone decodeTwoSizes false stTwoSizes).1.m_data = [] ∧
      (loadFilesDone decodeTwoSizes false stTwoSizes).2 = LoadOutcome.sizeMismatch) :=
  ⟨by decide,
    loadFilesDone_size_mismatch_clears_store decodeTwoSizes stTwoSizes
      (runLoad decodeTwoSizes "a") (runLoad decodeTwoSizes "b")
      (by decide) (by decide) (by decide)⟩

/-- Decode environment for the C3 theorems: every path decodes to the
same valid 1×1 frame. -/
def decodeUniform : String → DecodeResult := fun _ =>
  { width := 1, height := 1, hasEV := false, ev := 0, avgLum := 0, valid := true }

/-- C3 (counterexample): requesting the same path twice *within a
single `loadFiles` call* stores the item twice — the duplicate check
searches only the committed items, not the batch being assembled — so
the claim "exactly one stored item, including when the same path
appears twice within a single load call" fails on the input
`loadFiles initState ["a", "a"]`. -/
theorem loadFiles_inBatch_duplicate_counterexample :
    ((loadFilesDone decodeUniform false (loadFiles initState ["a", "a"])).1.m_data.map
        (fun it => it.filename)) = ["a", "a"] ∧
    (loadFilesDone decodeUniform false (loadFiles initState ["a", "a"])).1.m_data.length = 2 :=
  ⟨rfl, rfl⟩

/-- C3 (amended): a path already committed to the store is skipped by
exact string match, so re-requesting it in a *later* batch leaves
exactly one stored item for that path (when it decodes as valid, none
otherwise); but the duplicate check does not examine the pending batch,
so the same path twice within a single call stores two items. -/
theorem loadFiles_duplicate_across_batches (decode : String → DecodeResult) (p : String) :
    (((loadFilesDone decode false
          (loadFiles (loadFilesDone decode false (loadFiles initState [p])).1 [p])).1.m_data.filter
        (fun it => checkFileName it p)).length =
      if (decode p).valid then 1 else 0) ∧
    (((loadFilesDone decode false (loadFiles initState [p, p])).1.m_data.filter
        (fun it => checkFileName it p)).length =
      if (decode p).valid then 2 else 0) := by
  by_cases hv : (decode p).valid
  · simp [loadFiles, loadFilesDone, initState, runLoad, hv, checkFileName,
      framesHaveSameSize, List.filter_cons]
  · simp [loadFiles, loadFilesDone, initState, runLoad, hv, checkFileName,
      framesHaveSameSize, List.filter_cons]

end LoadMachine

/-- Modelled from the spec: the patch-grid resolution `agGridSize`
(declared in `AutoAntighosting.h`, which is not among the provided
sources); the spec fixes a square grid, "e.g. 64×64 cells". -/
def agGridSize : Nat := 64

/-- The ghost mask `m_patches`: one Boolean per grid cell, indexed as
`m_patches[i][j]`. -/
def Mask : Type := Fin agGridSize → Fin agGridSize → Bool

/-- One store `m_patches[i][j] = b`. -/
def setCell (m : Mask) (i j : Nat) (b : Bool) : Mask :=
  fun i' j' => if i'.val = i ∧ j'.val = j then b else m i' j'

/-- The reset loop of `computePatches` (lines 513-517): `for j { for i
{ m_patches[i][j] = false; } }`, applied to whatever mask an earlier
run left behind. -/
def resetMask (m : Mask) : Mask :=
  (List.range agGridSize).foldl
    (fun mj j => (List.range agGridSize).foldl (fun mi i => setCell mi i j false) mj)
    m

theorem resetRow_apply (m : Mask) (j : Nat) (n : Nat) (i' j' : Fin agGridSize) :
    ((List.range n).foldl (fun mi i => setCell mi i j false) m) i' j' =
      if i'.val < n ∧ j'.val = j then false else m i' j' := by
  induction n with
  | zero => simp
  | succ n ih =>
    rw [List.range_succ, List.foldl_append, List.foldl_cons, List.foldl_nil]
    show setCell _ n j false i' j' = _
    rw [setCell, ih]
    by_cases hi : i'.val = n <;> by_cases hj : j'.val = j <;>
      by_cases hlt : i'.val < n <;> simp [hi, hj, hlt] <;> omega

theorem resetMask_apply (m : Mask) (i' j' : Fin agGridSize) :
    resetMask m i' j' = false := by
  have key : ∀ (n : Nat) (mm : Mask),
      ((List.range n).foldl
        (fun mj j => (List.range agGridSize).foldl (fun mi i => setCell mi i j false) mj)
        mm) i' j' = if j'.val < n then false else mm i' j' := by
    intro n
    induction n with
    | zero => simp
    | succ n ih =>
      intro mm
      rw [List.range_succ, List.foldl_append, List.foldl_cons, List.foldl_nil,
        resetRow_apply, ih]
      have hi : i'.val < agGridSize := i'.isLt
      by_cases hj : j'.val = n <;> by_cases hlt : j'.val < n <;>
        simp [hi, hj, hlt] <;> omega
  rw [resetMask, key]
  simp [j'.isLt]

/-- Whatever mask state an earlier run left, the reset loop rebuilds
the all-false mask. -/
theorem resetMask_eq (m : Mask) : resetMask m = (fun _ _ => false) := by
  funext i j
  exact resetMask_apply m i j

/-- The helper routines `computePatches` calls that live in
`AutoAntighosting.cpp` / `<cmath>` (not among the provided sources):
the hue-based energy metric, the argmin search over it, the per-channel
std-dev baseline, the real `log2`, and the per-cell patch comparison.
They are parameters of the embedding, with the value-passing C++
signatures of the call sites; the theorems below hold for every choice
of (pure) helpers. -/
structure AgHelpers where
  hueSquaredMean : List HdrCreationItem → List ℚ
  findIndex : List ℚ → Nat
  sdv : HdrCreationItem → HdrCreationItem → ℚ → ℤ → ℤ → ℚ × ℚ × ℚ
  log2 : ℚ → ℚ
  comparePatches : HdrCreationItem → HdrCreationItem →
    Fin agGridSize → Fin agGridSize → Nat → Nat → ℚ → ℚ → ℚ → ℚ → ℚ → ℤ → ℤ → Bool

/-- The comparison `computePatches` performs for candidate image `h`
against the reference `h0` at grid cell `(i, j)` (lines 522-532):
exposure compensation `deltaEV`, residual offset `(dx, dy)`, the
std-dev baseline `sdv`, then `comparePatches`. -/
def patchCmp (H : AgHelpers) (items : List HdrCreationItem) (threshold : ℚ)
    (hvOffset : List (ℤ × ℤ)) (gridX gridY : Nat) (h0 h : Nat)
    (i j : Fin agGridSize) : Bool :=
  let deltaEV := H.log2 (items.getD h0 default).avgLum - H.log2 (items.getD h default).avgLum
  let dx := (hvOffset.getD h0 (0, 0)).1 - (hvOffset.getD h (0, 0)).1
  let dy := (hvOffset.getD h0 (0, 0)).2 - (hvOffset.getD h (0, 0)).2
  let s := H.sdv (items.getD h0 default) (items.getD h default) deltaEV dx dy
  H.comparePatches (items.getD h0 default) (items.getD h default) i j gridX gridY
    threshold s.1 s.2.1 s.2.2 deltaEV dx dy

/-- Number of flagged cells (the counting loop of lines 539-543). -/
def patchCount (m : Mask) : Nat :=
  ((List.finRange agGridSize).map
    (fun i => ((List.finRange agGridSize).filter (fun j => m i j)).length)).sum

/-- What `computePatches` returns: the output mask (copied to the
caller's array), the chosen reference index, and the reported
percentage. -/
structure PatchesResult where
  mask : Mask
  refIndex : Nat
  percent : ℚ

/-- `computePatches` (lines 491-554) from a given initial mask state:
pick the reference `h0` as `findIndex` over `hueSquaredMean`, then for
every other image OR each cell with the patch comparison, count the
flagged cells and report `count / (agGridSize·agGridSize) · 100`. -/
def computePatchesWithMask (H : AgHelpers) (m0 : Mask) (items : List HdrCreationItem)
    (threshold : ℚ) (hvOffset : List (ℤ × ℤ)) : PatchesResult :=
  let gridX := (items.getD 0 default).width / agGridSize
  let gridY := (items.getD 0 default).height / agGridSize
  let h0 := H.findIndex (H.hueSquaredMean items)
  let mask := (List.range items.length).foldl
    (fun m h =>
      if h = h0 then m
      else fun i j => m i j || patchCmp H items threshold hvOffset gridX gridY h0 h i j)
    m0
  { mask := mask, refIndex := h0,
    percent := (patchCount mask : ℚ) / ((agGridSize : ℚ) * (agGridSize : ℚ)) * 100 }

/-- `computePatches`, including the reset of whatever `m_patches` state
an earlier run left behind (`prior`). -/
def computePatches (H : AgHelpers) (prior : Mask) (items : List HdrCreationItem)
    (threshold : ℚ) (hvOffset : List (ℤ × ℤ)) : PatchesResult :=
  computePatchesWithMask H (resetMask prior) items threshold hvOffset

/-- C5: `computePatches` is deterministic: its output mask, reference
index and reported percentage are a function of the items, the
threshold and the alignment offsets alone — the mask state left by any
earlier run (`prior₁` vs `prior₂`) does not influence the result, for
every choice of the (pure) helper routines. -/
theorem computePatches_deterministic (H : AgHelpers) (prior₁ prior₂ : Mask)
    (items : List HdrCreationItem) (threshold : ℚ) (hvOffset : List (ℤ × ℤ)) :
    computePatches H prior₁ items threshold hvOffset =
      computePatches H prior₂ items threshold hvOffset := by
  unfold computePatches
  rw [resetMask_eq prior₁, resetMask_eq prior₂]

/-- Value of the accumulation loop of `computePatches` at one cell: the
initial mask value OR'd with the comparison of every non-reference
image. -/
theorem maskFold_apply (size h0 : Nat) (cmp : Nat → Fin agGridSize → Fin agGridSize → Bool)
    (m0 : Mask) (i j : Fin agGridSize) :
    ((List.range size).foldl
        (fun m h => if h = h0 then m else fun i j => m i j || cmp h i j) m0) i j =
      (m0 i j || (List.range size).any (fun h => decide (h ≠ h0) && cmp h i j)) := by
  induction size with
  | zero => simp
  | succ n ih =>
    rw [List.range_succ, List.foldl_append, List.foldl_cons, List.foldl_nil,
      List.any_append]
    rcases eq_or_ne n h0 with h | h
    · rw [if_pos h, ih]
      simp [h]
    · rw [if_neg h]
      show (_ || cmp n i j) = _
      rw [ih]
      simp [h, Bool.or_assoc]

/-- C7: In `computePatches`, a cell of the output mask is flagged
exactly when some non-reference image's patch comparison flags it
(logical OR across all candidate images), and the reported percentage
is the flagged-cell count divided by the total cell count, times 100. -/
theorem computePatches_or_percent (H : AgHelpers) (prior : Mask)
    (items : List HdrCreationItem) (threshold : ℚ) (hvOffset : List (ℤ × ℤ)) :
    (∀ i j : Fin agGridSize,
      (computePatches H prior items threshold hvOffset).mask i j = true ↔
        ∃ h, h < items.length ∧
          h ≠ (computePatches H prior items threshold hvOffset).refIndex ∧
          patchCmp H items threshold hvOffset
            ((items.getD 0 default).width / agGridSize)
            ((items.getD 0 default).height / agGridSize)
            (computePatches H prior items threshold hvOffset).refIndex h i j = true) ∧
    (computePatches H prior items threshold hvOffset).percent =
      (patchCount (computePatches H prior items threshold hvOffset).mask : ℚ) /
        ((agGridSize : ℚ) * (agGridSize : ℚ)) * 100 := by
  constructor
  · intro i j
    show ((List.range items.length).foldl _ (resetMask prior)) i j = true ↔ _
    rw [maskFold_apply, resetMask_apply]
    simp only [Bool.false_or, List.any_eq_true, List.mem_range, Bool.and_eq_true,
      decide_eq_true_eq]
    constructor
    · rintro ⟨h, hlt, hne, hc⟩
      exact ⟨h, hlt, hne, hc⟩
    · rintro ⟨h, hlt, hne, hc⟩
      exact ⟨h, hlt, hne, hc⟩
  · rfl

/-- Modelled from the spec: the body of `comparePatches`
(`AutoAntighosting.cpp`, not among the provided sources).  Per the
spec, a cell is flagged when the exposure- and offset-compensated
deviation between the reference and candidate patch exceeds
`threshold × (baseline std-dev)`, with per-channel baselines
`sR, sG, sB`; the deviation of each channel is an unspecified function
of the remaining arguments (parameters `devR`, `devG`, `devB` —
crucially, not of the threshold). -/
def comparePatchesModel
    (devR devG devB : HdrCreationItem → HdrCreationItem → Fin agGridSize → Fin agGridSize →
      Nat → Nat → ℚ → ℤ → ℤ → ℚ) :
    HdrCreationItem → HdrCreationItem → Fin agGridSize → Fin agGridSize →
      Nat → Nat → ℚ → ℚ → ℚ → ℚ → ℚ → ℤ → ℤ → Bool :=
  fun ref cand i j gX gY threshold sR sG sB dEV dx dy =>
    decide (devR ref cand i j gX gY dEV dx dy > threshold * sR) ||
    decide (devG ref cand i j gX gY dEV dx dy > threshold * sG) ||
    decide (devB ref cand i j gX gY dEV dx dy > threshold * sB)

/-- Raising the threshold can only unflag a cell, as long as the
std-dev baselines are nonnegative. -/
theorem comparePatchesModel_antitone
    (devR devG devB : HdrCreationItem → HdrCreationItem → Fin agGridSize → Fin agGridSize →
      Nat → Nat → ℚ → ℤ → ℤ → ℚ)
    (ref cand : HdrCreationItem) (i j : Fin agGridSize) (gX gY : Nat)
    (t1 t2 sR sG sB dEV : ℚ) (dx dy : ℤ)
    (ht : t1 ≤ t2) (h1 : 0 ≤ sR) (h2 : 0 ≤ sG) (h3 : 0 ≤ sB) :
    comparePatchesModel devR devG devB ref cand i j gX gY t2 sR sG sB dEV dx dy = true →
    comparePatchesModel devR devG devB ref cand i j gX gY t1 sR sG sB dEV dx dy = true := by
  have key : ∀ d s : ℚ, 0 ≤ s → decide (d > t2 * s) = true → decide (d > t1 * s) = true := by
    intro d s hs h
    rw [decide_eq_true_eq] at h ⊢
    exact lt_of_le_of_lt (mul_le_mul_of_nonneg_right ht hs) h
  intro hyp
  rcases Bool.or_eq_true_iff.mp hyp with h' | h'
  · rcases Bool.or_eq_true_iff.mp h' with h'' | h''
    · exact Bool.or_eq_true_iff.mpr
        (Or.inl (Bool.or_eq_true_iff.mpr (Or.inl (key _ _ h1 h''))))
    · exact Bool.or_eq_true_iff.mpr
        (Or.inl (Bool.or_eq_true_iff.mpr (Or.inr (key _ _ h2 h''))))
  · exact Bool.or_eq_true_iff.mpr (Or.inr (key _ _ h3 h'))

/-- Fewer flagged cells means a smaller count. -/
theorem patchCount_mono (m1 m2 : Mask) (h : ∀ i j, m2 i j = true → m1 i j = true) :
    patchCount m2 ≤ patchCount m1 := by
  unfold patchCount
  apply List.sum_le_sum
  intro i _
  exact List.Sublist.length_le (List.monotone_filter_right _ (fun j hj => h i j hj))

/-- C6: For fixed items and alignment offsets, the flagged-cell count
of `computePatches` is antitone in the threshold: with the
spec-modelled `comparePatches` and nonnegative std-dev baselines, a
larger threshold never flags more cells. -/
theorem computePatches_threshold_antitone
    (hue : List HdrCreationItem → List ℚ) (fIdx : List ℚ → Nat)
    (sdv : HdrCreationItem → HdrCreationItem → ℚ → ℤ → ℤ → ℚ × ℚ × ℚ)
    (lg : ℚ → ℚ)
    (devR devG devB : HdrCreationItem → HdrCreationItem → Fin agGridSize → Fin agGridSize →
      Nat → Nat → ℚ → ℤ → ℤ → ℚ)
    (prior : Mask) (items : List HdrCreationItem) (hvOffset : List (ℤ × ℤ))
    (t1 t2 : ℚ) (ht : t1 ≤ t2)
    (hs : ∀ a b d x y, 0 ≤ (sdv a b d x y).1 ∧ 0 ≤ (sdv a b d x y).2.1 ∧
      0 ≤ (sdv a b d x y).2.2) :
    patchCount (computePatches ⟨hue, fIdx, sdv, lg, comparePatchesModel devR devG devB⟩
        prior items t2 hvOffset).mask ≤
      patchCount (computePatches ⟨hue, fIdx, sdv, lg, comparePatchesModel devR devG devB⟩
        prior items t1 hvOffset).mask := by
  apply patchCount_mono
  intro i j
  show ((List.range items.length).foldl _ (resetMask prior)) i j = true →
    ((List.range items.length).foldl _ (resetMask prior)) i j = true
  rw [maskFold_apply, maskFold_apply, resetMask_apply]
  simp only [Bool.false_or, List.any_eq_true, List.mem_range, Bool.and_eq_true,
    decide_eq_true_eq]
  rintro ⟨h, hmem, hne, hc⟩
  refine ⟨h, hmem, hne, ?_⟩
  exact comparePatchesModel_antitone devR devG devB _ _ i j _ _ t1 t2 _ _ _ _ _ _ ht
    (hs _ _ _ _ _).1 (hs _ _ _ _ _).2.1 (hs _ _ _ _ _).2.2 hc

/-- Concrete helpers for the C6 witness. -/
def sdvOne : HdrCreationItem → HdrCreationItem → ℚ → ℤ → ℤ → ℚ × ℚ × ℚ :=
  fun _ _ _ _ _ => (1, 1, 1)

/-- Constant-zero deviation for the C6 witness. -/
def devZero : HdrCreationItem → HdrCreationItem → Fin agGridSize → Fin agGridSize →
    Nat → Nat → ℚ → ℤ → ℤ → ℚ :=
  fun _ _ _ _ _ _ _ _ _ => 0

/-- Hue energies for the C6 witness. -/
def hueConst : List HdrCreationItem → List ℚ := fun _ => []

/-- Argmin stub for the C6 witness. -/
def fIdxZero : List ℚ → Nat := fun _ => 0

/-- `log2` stub for the C6 witness. -/
def log2Zero : ℚ → ℚ := fun _ => 0

/-- The all-false mask. -/
def maskFalse : Mask := fun _ _ => false

/-- Witness for C6 at a concrete input (thresholds `1 ≤ 2`, unit
baselines, zero deviations, empty item list). -/
theorem computePatches_threshold_antitone_witness :
    ((1 : ℚ) ≤ 2) ∧
    (∀ a b d x y, 0 ≤ (sdvOne a b d x y).1 ∧ 0 ≤ (sdvOne a b d x y).2.1 ∧
      0 ≤ (sdvOne a b d x y).2.2) ∧
    patchCount (computePatches ⟨hueConst, fIdxZero, sdvOne, log2Zero,
        comparePatchesModel devZero devZero devZero⟩ maskFalse [] 2 []).mask ≤
      patchCount (computePatches ⟨hueConst, fIdxZero, sdvOne, log2Zero,
        comparePatchesModel devZero devZero devZero⟩ maskFalse [] 1 []).mask :=
  ⟨by decide,
   fun _ _ _ _ _ =>
     ⟨(by decide : (0 : ℚ) ≤ 1), (by decide : (0 : ℚ) ≤ 1), (by decide : (0 : ℚ) ≤ 1)⟩,
   computePatches_threshold_antitone hueConst fIdxZero sdvOne log2Zero
     devZero devZero devZero maskFalse [] [] 1 2 (by decide)
     (fun _ _ _ _ _ =>
       ⟨(by decide : (0 : ℚ) ≤ 1), (by decide : (0 : ℚ) ≤ 1), (by decide : (0 : ℚ) ≤ 1)⟩)⟩

/-! ## `doAntiGhosting` (lines 556-780)

The image-processing primitives (`computeLogIrradiance`,
`computeGradient`, `blendGradients`, `computeDivergence`,
`solve_pde_dct`, `computeIrradiance`, `clampToZero`, `shadesOfGrayAWB`)
are represented symbolically: every `Array2Df` buffer carries a
provenance expression recording which operation produced it from which
inputs.  The defs below perform the assignments in exactly the order of
the C++ statements, each annotated with its source line. -/

/-- The six channel buffers `doAntiGhosting` starts from: the X/Y/Z
channels of the rebuilt fused ("ghosted") frame and of the reference
frame `m_data[h0]` (R ↔ X, G ↔ Y, B ↔ Z). -/
inductive AgSrc where
  | ghostX : AgSrc
  | ghostY : AgSrc
  | ghostZ : AgSrc
  | goodX : AgSrc
  | goodY : AgSrc
  | goodZ : AgSrc
deriving DecidableEq, Repr

/-- Provenance of an `Array2Df` buffer inside `doAntiGhosting`. -/
inductive AgExpr where
  /-- A copy of one of the six input channels. -/
  | source : AgSrc → AgExpr
  /-- A freshly allocated `Array2Df(width, height)` whose contents have
  not yet been written (the constructor does not initialise the
  memory); the tag distinguishes allocations. -/
  | fresh : Nat → AgExpr
  /-- `computeLogIrradiance(out, in)`. -/
  | logIrr : AgExpr → AgExpr
  /-- X output of `computeGradient(gx, gy, in)`. -/
  | gradX : AgExpr → AgExpr
  /-- Y output of `computeGradient(gx, gy, in)`. -/
  | gradY : AgExpr → AgExpr
  /-- X output of `blendGradients` (own gradients, reference gradients,
  mask). -/
  | blendX : AgExpr → AgExpr → AgExpr → AgExpr → AgExpr
  /-- Y output of `blendGradients`. -/
  | blendY : AgExpr → AgExpr → AgExpr → AgExpr → AgExpr
  /-- `computeDivergence(out, gx, gy)`. -/
  | divergence : AgExpr → AgExpr → AgExpr
  /-- `solve_pde_dct(div, u)`: the solution written into `u`. -/
  | pde : AgExpr → AgExpr → AgExpr
  /-- `computeIrradiance(out, in)`. -/
  | irradiance : AgExpr → AgExpr
  /-- Channel `k` of `clampToZero(r, g, b, m)` (joint over the three
  channels). -/
  | clamp : Fin 3 → AgExpr → AgExpr → AgExpr → AgExpr
  /-- Channel `k` of `shadesOfGrayAWB(r, g, b)` (joint). -/
  | awb : Fin 3 → AgExpr → AgExpr → AgExpr → AgExpr
deriving DecidableEq, Repr

/-- Line 586: `Array2Df Rc(*Xc)` — the ghosted frame's X channel. -/
def Rc : AgExpr := .source .ghostX

/-- Line 587: `Array2Df Gc(*Xc)` — built from the ghosted frame's
**X** channel (not Y). -/
def Gc : AgExpr := .source .ghostX

/-- Line 588: `Array2Df Bc(*Xc)` — built from the ghosted frame's
**X** channel (not Z). -/
def Bc : AgExpr := .source .ghostX

/-- Line 582: `Array2Df Good_Rc(*Good_Xc)`. -/
def Good_Rc : AgExpr := .source .goodX

/-- Line 583: `Array2Df Good_Gc(*Good_Yc)`. -/
def Good_Gc : AgExpr := .source .goodY

/-- Line 584: `Array2Df Good_Bc(*Good_Zc)`. -/
def Good_Bc : AgExpr := .source .goodZ

/-- Line 596: `computeLogIrradiance(logIrradiance_R, Rc)`. -/
def logIrradiance_R : AgExpr := .logIrr Rc

/-- Line 602: `computeLogIrradiance(logIrradianceGood_R, Good_Rc)`. -/
def logIrradianceGood_R : AgExpr := .logIrr Good_Rc

/-- Line 603: `computeGradient(gradientXGood_R, gradientYGood_R,
logIrradianceGood_R)` — after the buffer was filled at line 602. -/
def gradientXGood_R : AgExpr := .gradX logIrradianceGood_R

/-- Line 603 (Y output). -/
def gradientYGood_R : AgExpr := .gradY logIrradianceGood_R

/-- Line 609: `computeGradient(gradientX_R, gradientY_R,
logIrradiance_R)`. -/
def gradientX_R : AgExpr := .gradX logIrradiance_R

/-- Line 609 (Y output). -/
def gradientY_R : AgExpr := .gradY logIrradiance_R

/-- Line 637: `computeLogIrradiance(logIrradiance_G, Gc)` — `Gc` holds
the ghosted frame's X channel (line 587). -/
def logIrradiance_G : AgExpr := .logIrr Gc

/-- Line 642: `Array2Df logIrradianceGood_G(width, height)` — at the
point of the `computeGradient` call of line 643 this buffer has not
been written yet. -/
def logIrradianceGood_G_unwritten : AgExpr := .fresh 0

/-- Line 643: `computeGradient(gradientXGood_G, gradientYGood_G,
logIrradianceGood_G)` — reads the *unwritten* allocation of line 642;
`computeLogIrradiance(logIrradianceGood_G, Good_Gc)` only runs
afterwards, at line 645. -/
def gradientXGood_G : AgExpr := .gradX logIrradianceGood_G_unwritten

/-- Line 643 (Y output). -/
def gradientYGood_G : AgExpr := .gradY logIrradianceGood_G_unwritten

/-- Line 645: `computeLogIrradiance(logIrradianceGood_G, Good_Gc)` —
fills the buffer only after its gradient was already taken. -/
def logIrradianceGood_G : AgExpr := .logIrr Good_Gc

/-- Line 651: `computeGradient(gradientX_G, gradientY_G,
logIrradiance_G)`. -/
def gradientX_G : AgExpr := .gradX logIrradiance_G

/-- Line 651 (Y output). -/
def gradientY_G : AgExpr := .gradY logIrradiance_G

/-- Line 679: `computeLogIrradiance(logIrradiance_B, Bc)` — `Bc` holds
the ghosted frame's X channel (line 588). -/
def logIrradiance_B : AgExpr := .logIrr Bc

/-- Line 685: `computeLogIrradiance(logIrradianceGood_B, Good_Bc)`. -/
def logIrradianceGood_B : AgExpr := .logIrr Good_Bc

/-- Line 686: `computeGradient(gradientXGood_B, gradientYGood_B,
logIrradianceGood_B)`. -/
def gradientXGood_B : AgExpr := .gradX logIrradianceGood_B

/-- Line 686 (Y output). -/
def gradientYGood_B : AgExpr := .gradY logIrradianceGood_B

/-- Line 692: `computeGradient(gradientX_B, gradientY_B,
logIrradiance_B)`. -/
def gradientX_B : AgExpr := .gradX logIrradiance_B

/-- Line 692 (Y output). -/
def gradientY_B : AgExpr := .gradY logIrradiance_B

/-- The per-channel buffers the claim about the log-irradiance /
gradient stage talks about. -/
structure ChannelTrace where
  ghostLog : AgExpr
  goodGradX : AgExpr
  goodGradY : AgExpr
  ghostGradX : AgExpr
  ghostGradY : AgExpr
deriving DecidableEq, Repr

/-- The red-channel buffers as the code computes them. -/
def redTrace : ChannelTrace :=
  { ghostLog := logIrradiance_R, goodGradX := gradientXGood_R,
    goodGradY := gradientYGood_R, ghostGradX := gradientX_R,
    ghostGradY := gradientY_R }

/-- The green-channel buffers as the code computes them. -/
def greenTrace : ChannelTrace :=
  { ghostLog := logIrradiance_G, goodGradX := gradientXGood_G,
    goodGradY := gradientYGood_G, ghostGradX := gradientX_G,
    ghostGradY := gradientY_G }

/-- The blue-channel buffers as the code computes them. -/
def blueTrace : ChannelTrace :=
  { ghostLog := logIrradiance_B, goodGradX := gradientXGood_B,
    goodGradY := gradientYGood_B, ghostGradX := gradientX_B,
    ghostGradY := gradientY_B }

/-- The claim's per-channel property: channel `c` of the ghosted frame
and channel `c` of the reference frame are converted to log-irradiance,
and the forward-difference gradients are taken of both of those
log-irradiance fields. -/
def channelStageClaim (t : ChannelTrace) (ghostSrc goodSrc : AgSrc) : Prop :=
  t.ghostLog = .logIrr (.source ghostSrc) ∧
  t.goodGradX = .gradX (.logIrr (.source goodSrc)) ∧
  t.goodGradY = .gradY (.logIrr (.source goodSrc)) ∧
  t.ghostGradX = .gradX (.logIrr (.source ghostSrc)) ∧
  t.ghostGradY = .gradY (.logIrr (.source ghostSrc))

instance (t : ChannelTrace) (g1 g2 : AgSrc) : Decidable (channelStageClaim t g1 g2) := by
  unfold channelStageClaim
  infer_instance

/-- C1 (code bug): the red channel follows the claimed pipeline, but
the green and blue channels do not: `Gc` and `Bc` are copies of the
ghosted frame's X channel (lines 587-588), so green and blue operate on
red's data, and the green reference gradient is taken from the
still-unwritten buffer (line 643) before the log-irradiance is computed
into it (line 645). -/
theorem doAntiGhosting_channel_stage_bug :
    channelStageClaim redTrace .ghostX .goodX ∧
    ¬ channelStageClaim greenTrace .ghostY .goodY ∧
    ¬ channelStageClaim blueTrace .ghostZ .goodZ := by
  refine ⟨⟨rfl, rfl, rfl, rfl, rfl⟩, ?_, ?_⟩
  · intro h
    exact absurd h.1 (by decide)
  · intro h
    exact absurd h.1 (by decide)

/-- Line 630: `computeDivergence(divergence_R, gradientXBlended_R,
gradientYBlended_R)`; the blend (lines 614-623) mixes the ghosted
frame's own gradients with the reference gradients under the mask. -/
def divergence_R : AgExpr :=
  .divergence (.blendX gradientX_R gradientY_R gradientXGood_R gradientYGood_R)
    (.blendY gradientX_R gradientY_R gradientXGood_R gradientYGood_R)

/-- Line 672 for green (blend at lines 656-665). -/
def divergence_G : AgExpr :=
  .divergence (.blendX gradientX_G gradientY_G gradientXGood_G gradientYGood_G)
    (.blendY gradientX_G gradientY_G gradientXGood_G gradientYGood_G)

/-- Line 713 for blue (blend at lines 697-706). -/
def divergence_B : AgExpr :=
  .divergence (.blendX gradientX_B gradientY_B gradientXGood_B gradientYGood_B)
    (.blendY gradientX_B gradientY_B gradientXGood_B gradientYGood_B)

/-- Line 743: `computeIrradiance(*Urc, logIrradiance_R)` after
`solve_pde_dct(divergence_R, logIrradiance_R)` (line 719). -/
def Urc : AgExpr := .irradiance (.pde divergence_R logIrradiance_R)

/-- Line 749 after line 726. -/
def Ugc : AgExpr := .irradiance (.pde divergence_G logIrradiance_G)

/-- Line 755 after line 733. -/
def Ubc : AgExpr := .irradiance (.pde divergence_B logIrradiance_B)

/-- A deghosted frame: the three output channels after the joint
clamp-to-zero (line 768) and gray-world white balance (line 770). -/
structure AgFrame where
  r : AgExpr
  g : AgExpr
  b : AgExpr
deriving DecidableEq, Repr

/-- The frame `doAntiGhosting` returns on the success path
(lines 739-779). -/
def deghostedFrame : AgFrame :=
  { r := .awb 0 (.clamp 0 Urc Ugc Ubc) (.clamp 1 Urc Ugc Ubc) (.clamp 2 Urc Ugc Ubc),
    g := .awb 1 (.clamp 0 Urc Ugc Ubc) (.clamp 1 Urc Ugc Ubc) (.clamp 2 Urc Ugc Ubc),
    b := .awb 2 (.clamp 0 Urc Ugc Ubc) (.clamp 1 Urc Ugc Ubc) (.clamp 2 Urc Ugc Ubc) }

/-- The store after `this->reset()` (line 592, body at lines 794-812):
`m_data.clear(); m_tmpdata.clear();` — the EV offset is not
recomputed. -/
def resetStore (st : StoreState) : StoreState :=
  { m_data := [], m_tmpdata := [], m_evOffset := st.m_evOffset }

/-- The control flow of `doAntiGhosting`, with the seven
`ph->canceled()` checkpoints in program order: checkpoint 0 after the
fused-frame rebuild (line 580), checkpoints 1-3 after the three
`solve_pde_dct` calls (lines 721, 728, 735), checkpoints 4-6 after the
three `computeIrradiance` calls (lines 746, 752, 758).  Each returns
`NULL` when the query reports cancellation; `this->reset()` runs at
line 592, after checkpoint 0 and before all others. -/
def doAntiGhosting (cancel : Fin 7 → Bool) (st : StoreState) :
    Option AgFrame × StoreState :=
  if cancel 0 then (none, st)
  else
    let st1 := resetStore st
    if cancel 1 then (none, st1)
    else if cancel 2 then (none, st1)
    else if cancel 3 then (none, st1)
    else if cancel 4 then (none, st1)
    else if cancel 5 then (none, st1)
    else if cancel 6 then (none, st1)
    else (some deghostedFrame, st1)

/-- C9: If the cancellation query reports cancelled at any of the seven
checkpoints, `doAntiGhosting` returns no frame (the C++ `NULL`). -/
theorem doAntiGhosting_cancel_returns_none (cancel : Fin 7 → Bool) (st : StoreState)
    (h : ∃ i, cancel i = true) :
    (doAntiGhosting cancel st).1 = none := by
  obtain ⟨i, hi⟩ := h
  unfold doAntiGhosting
  split_ifs with h0 h1 h2 h3 h4 h5 h6 <;> try rfl
  exfalso
  fin_cases i <;> simp_all

/-- Witness for C9: with the query reporting cancelled everywhere, the
solver returns no frame. -/
theorem doAntiGhosting_cancel_returns_none_witness :
    (∃ i : Fin 7, (fun _ : Fin 7 => true) i = true) ∧
    (doAntiGhosting (fun _ => true) initState).1 = none :=
  ⟨⟨0, rfl⟩, doAntiGhosting_cancel_returns_none (fun _ => true) initState ⟨0, rfl⟩⟩

/-- C10: Every `doAntiGhosting` call that passes the first checkpoint
clears the exposure store as a side effect (`this->reset()` at line
592): afterwards no committed and no pending items remain, and
`availableInputFiles` reports `0` — whether the call later completes or
is cancelled at a later checkpoint. -/
theorem doAntiGhosting_clears_store (cancel : Fin 7 → Bool) (st : StoreState)
    (h : cancel 0 = false) :
    availableInputFiles (doAntiGhosting cancel st).2 = 0 ∧
    (doAntiGhosting cancel st).2.m_data = [] ∧
    (doAntiGhosting cancel st).2.m_tmpdata = [] := by
  unfold doAntiGhosting
  rw [h]
  simp only [Bool.false_eq_true, if_false]
  split_ifs <;> exact ⟨rfl, rfl, rfl⟩

/-- A store with one committed item and one pending path, for the C10
witness. -/
def stOneItem : StoreState :=
  { m_data := [{ filename := "a", width := 1, height := 1, hasEV := true,
                 ev := 1, avgLum := 1, valid := true }],
    m_tmpdata := ["b"], m_evOffset := 1 }

/-- Witness for C10: a run that is never cancelled, starting from a
nonempty store, ends with an empty store. -/
theorem doAntiGhosting_clears_store_witness :
    ((fun _ : Fin 7 => false) 0 = false) ∧
    (availableInputFiles (doAntiGhosting (fun _ => false) stOneItem).2 = 0 ∧
      (doAntiGhosting (fun _ => false) stOneItem).2.m_data = [] ∧
      (doAntiGhosting (fun _ => false) stOneItem).2.m_tmpdata = []) :=
  ⟨rfl, doAntiGhosting_clears_store (fun _ => false) stOneItem rfl⟩
